import Mathlib

/-!
Verification of the Whiteboard-bridge repository (TypeScript sources
`src/bridge/Room.ts` and the unnamed bridge file).  The definitions below are
a shallow embedding of the locally-authored logic: the slide-source
classifier `makeSlideParams`, the app-creation dispatcher `addApp` /
`addSlideApp`, the error-handling shape of the asynchronous bridge methods,
single-room paging (`nextPage` / `prevPage`), and `cleanScene`.
-/

/-- Embedding of the SDK type `PptDescription`: the slide-source descriptor a
scene optionally carries.  Only `src` is ever read by the code under
verification; the dimension fields are carried along untouched. -/
structure PptDescription where
  src : String
  width : Int
  height : Int
  previewURL : Option String
deriving DecidableEq, Repr

/-- Embedding of the SDK type `SceneDefinition`: a named presentation scene
with an optional slide-source descriptor.  Both fields are optional in the
TypeScript type. -/
structure SceneDefinition where
  name : Option String
  ppt : Option PptDescription
deriving DecidableEq, Repr

/-- Model of `String.prototype.startsWith`: the second string is a prefix of
the first. -/
def jsStartsWith (s p : String) : Bool :=
  p.data.isPrefixOf s.data

/-- Model of the JavaScript character class `\s` (so `\S` is its negation):
ASCII whitespace plus the Unicode space characters JavaScript includes. -/
def isJsSpace (c : Char) : Bool :=
  c = ' ' || c = '\t' || c = '\n' || c = '\r' || c = '\x0b' || c = '\x0c' ||
  c.val = 0x00A0 || c.val = 0x1680 || (0x2000 ≤ c.val && c.val ≤ 0x200A) ||
  c.val = 0x2028 || c.val = 0x2029 || c.val = 0x202F || c.val = 0x205F ||
  c.val = 0x3000 || c.val = 0xFEFF

/-- Model of the JavaScript character class `\w`: ASCII letters, digits and
underscore. -/
def isWordChar (c : Char) : Bool :=
  c.isAlphanum || c = '_'

/-- Tail of the slide-source pattern: matches the literal `dynamicConvert`,
then `/`, then a nonempty run of word characters (the `taskId` group,
greedy), then `/`, at the head of `l`.  Returns the `taskId` characters. -/
def matchDynTail (l : List Char) : Option (List Char) :=
  if "dynamicConvert".data.isPrefixOf l then
    match l.drop "dynamicConvert".data.length with
    | '/' :: l2 =>
      let w := l2.takeWhile isWordChar
      match l2.drop w.length with
      | '/' :: _ => if w.isEmpty then none else some w
      | _ => none
    | _ => none
  else none

/-- Lazy `\S+?` of the slide-source pattern: consume non-space characters one
at a time (at least one), and after each consumed character test whether the
rest of the pattern (`matchDynTail`) matches at the remaining input; the
first (shortest) success wins, mirroring lazy-quantifier backtracking.
Returns the consumed characters (in order) and the `taskId` group. -/
def goLazy (consumedRev : List Char) : List Char → Option (List Char × List Char)
  | [] => none
  | c :: rest =>
    if isJsSpace c then none
    else
      match matchDynTail rest with
      | some tid => some ((c :: consumedRev).reverse, tid)
      | none => goLazy (c :: consumedRev) rest

/-- Attempt the part of the slide-source pattern after `pptx?` at `l`: the
literal `://`, the lazy `\S+?`, then `dynamicConvert/\w+/`.  On success
returns the text of the named group for the url stem (which spans from `://`
through `dynamicConvert`) and the `taskId` group. -/
def tryProtoAt (l : List Char) : Option (String × String) :=
  if "://".data.isPrefixOf l then
    match goLazy [] (l.drop 3) with
    | some (consumed, tid) =>
      some ("://" ++ String.mk consumed ++ "dynamicConvert", String.mk tid)
    | none => none
  else none

/-- Embedding of `pptSrcRE.exec` for the anchored pattern
`/^pptx?(?<p>:\/\/\S+?dynamicConvert)\/(?<taskId>\w+)\//` from
`makeSlideParams`.  The optional `x` is greedy with backtracking: when the
input starts with `pptx` the match is first attempted after the `x`, and only
if that whole attempt fails is it retried after `ppt`.  Returns the url-stem
group and the `taskId` group on success. -/
def execPptSrcRE (src : String) : Option (String × String) :=
  if "pptx".data.isPrefixOf src.data then
    match tryProtoAt (src.data.drop 4) with
    | some r => some r
    | none => tryProtoAt (src.data.drop 3)
  else if "ppt".data.isPrefixOf src.data then
    tryProtoAt (src.data.drop 3)
  else
    none

/-- One iteration of the scan loop in `makeSlideParams` for a single scene:
`continue` (here `none`) when the scene has no `ppt`, when its `src` does not
start with `"ppt"`, or when the pattern does not match; otherwise the pair
`(taskId, "https" + stem)` that the loop assigns before `break`. -/
def sceneHit (s : SceneDefinition) : Option (String × String) :=
  match s.ppt with
  | none => none
  | some p =>
    if jsStartsWith p.src "ppt" then
      match execPptSrcRE p.src with
      | some (stem, tid) => some (tid, "https" ++ stem)
      | none => none
    else none

/-- The scan loop of `makeSlideParams` over the whole scene list: the first
scene whose `sceneHit` succeeds supplies `(taskId, url)` and the loop breaks;
if none succeeds both stay the empty string. -/
def slideScan : List SceneDefinition → String × String
  | [] => ("", "")
  | s :: rest =>
    match sceneHit s with
    | some r => r
    | none => slideScan rest

/-- Result record of `makeSlideParams`. -/
structure SlideParamsResult where
  scenesWithoutPPT : List SceneDefinition
  taskId : String
  url : String
deriving DecidableEq, Repr

/-- Embedding of `makeSlideParams` (unnamed bridge file, lines 42-69): map
every scene to a name-only placeholder, and scan the scenes for the first
slide source matching `pptSrcRE`. -/
def makeSlideParams (scenes : List SceneDefinition) : SlideParamsResult :=
  let scenesWithoutPPT := scenes.map fun v => { name := v.name, ppt := none }
  let r := slideScan scenes
  { scenesWithoutPPT := scenesWithoutPPT, taskId := r.1, url := r.2 }

/-- Embedding of the `SlideAttributes` payload handed to the window manager
when a slide app is created: the conversion task identifier and content
server base url. -/
structure SlideAttributes where
  taskId : String
  url : String
deriving DecidableEq, Repr

/-- The relevant shape of the untyped `options` object reaching `addApp`: the
three fields read on the slide path (`scenePath`, `title`, `scenes`, each
possibly absent at runtime), plus whatever else the payload carries
(`rest`), which matters only for verbatim forwarding. -/
structure RawOptions (α : Type) where
  scenePath : Option String
  title : Option String
  scenes : Option (List SceneDefinition)
  rest : α
deriving DecidableEq

/-- Payload of a `window.manager.addApp` call issued by `addSlideApp`: either
kind `"Slide"` with name-only scenes and `SlideAttributes`, or kind
`"DocsViewer"` (the `BuiltinApps.DocsViewer` constant) with the original
scenes and no attributes. -/
structure SlideAddAppParams where
  kind : String
  scenePath : Option String
  title : Option String
  scenes : List SceneDefinition
  attributes : Option SlideAttributes
deriving DecidableEq

/-- A call made to the external `window.manager.addApp` facility: either the
payload built by `addSlideApp`, or a verbatim forward of the caller's kind,
options and attributes. -/
inductive AddAppCall (α β : Type) where
  | slideCreate (p : SlideAddAppParams)
  | generic (kind : String) (options : RawOptions α) (attributes : β)
deriving DecidableEq

/-- Observable outcome of one `RoomAsyncBridge.addApp` invocation: no body
runs at all when `window.manager` is absent; the slide path throws a
`TypeError` when `options.scenes` is absent (`makeSlideParams` iterates over
it unguarded); otherwise exactly one external `addApp` call is issued. -/
inductive AddAppOutcome (α β : Type) where
  | noCall
  | throwsTypeError
  | call (c : AddAppCall α β)
deriving DecidableEq

/-- Embedding of `addSlideApp` (unnamed bridge file, lines 71-101): run
`makeSlideParams`, then choose the slide path when both `taskId` and `url`
are truthy (nonempty) strings, and the document-viewer path otherwise. -/
def addSlideApp (scenePath title : Option String) (scenes : List SceneDefinition) :
    SlideAddAppParams :=
  let r := makeSlideParams scenes
  if r.taskId ≠ "" ∧ r.url ≠ "" then
    { kind := "Slide", scenePath := scenePath, title := title,
      scenes := r.scenesWithoutPPT,
      attributes := some { taskId := r.taskId, url := r.url } }
  else
    { kind := "DocsViewer", scenePath := scenePath, title := title,
      scenes := scenes, attributes := none }

/-- Embedding of `RoomAsyncBridge.addApp` (unnamed bridge file, lines
450-468): nothing happens without a window manager; kind `"Slide"` goes
through `addSlideApp` on the fields read from `options`; any other kind is
forwarded verbatim. -/
def addApp {α β : Type} (managerPresent : Bool) (kind : String)
    (options : RawOptions α) (attributes : β) : AddAppOutcome α β :=
  if managerPresent then
    if kind = "Slide" then
      match options.scenes with
      | some scs =>
        .call (.slideCreate (addSlideApp options.scenePath options.title scs))
      | none => .throwsTypeError
    else
      .call (.generic kind options attributes)
  else
    .noCall

/-- Whether an `addApp` outcome ever schedules the response callback: only a
successfully issued external call registers the `.then` continuation that
invokes `responseCallback`; the no-manager path and the throwing path never
do. -/
def outcomeInvokesCallback {α β : Type} : AddAppOutcome α β → Bool
  | .call _ => true
  | _ => false

/-- A JavaScript exception as the bridge observes it: its `message` and
`stack` strings. -/
structure JsError where
  message : String
  stack : String
deriving DecidableEq

/-- Observable completion of one asynchronous bridge method invocation:
a JSON-string response, a bare (non-JSON-encoded) value response, or an
exception escaping the method uncaught. -/
inductive BridgeOutcome where
  | responded (payload : String)
  | respondedNum (n : Int)
  | threw (e : JsError)
deriving DecidableEq

/-- Lower-case hexadecimal digit for `n < 16`. -/
def hexDigitChar (n : Nat) : Char :=
  if n < 10 then Char.ofNat (48 + n) else Char.ofNat (87 + n)

/-- Escaping performed by `JSON.stringify` on one character of a string
value. -/
def jsonEscapeChar (c : Char) : String :=
  if c = '"' then "\\\""
  else if c = '\\' then "\\\\"
  else if c = '\n' then "\\n"
  else if c = '\r' then "\\r"
  else if c = '\t' then "\\t"
  else if c = '\x08' then "\\b"
  else if c = '\x0c' then "\\f"
  else if c.val < 0x20 then
    "\\u00" ++ String.mk [hexDigitChar (c.val.toNat / 16), hexDigitChar (c.val.toNat % 16)]
  else String.mk [c]

/-- Model of `JSON.stringify` on a string value. -/
def jsonQuote (s : String) : String :=
  "\"" ++ String.join (s.data.map jsonEscapeChar) ++ "\""

/-- The serialized error payload built by the guarded bridge methods:
`JSON.stringify(\x7b __error: \x7b message: e.message, jsStack: e.stack \x7d \x7d)`. -/
def errorJson (e : JsError) : String :=
  "\x7b\"__error\":\x7b\"message\":" ++ jsonQuote e.message ++
    ",\"jsStack\":" ++ jsonQuote e.stack ++ "\x7d\x7d"

/-- Embedding of `RoomAsyncBridge.setScenePath` (unnamed bridge file, lines
210-221): the collaborator call (manager or room variant) runs inside
`try`/`catch`; success answers `JSON.stringify(\x7b\x7d)`, an exception is
rewrapped into the `__error` payload.  `callResult` is the outcome of the
guarded collaborator call. -/
def setScenePathBridge (callResult : Except JsError Unit) : BridgeOutcome :=
  match callResult with
  | .ok _ => .responded "\x7b\x7d"
  | .error e => .responded (errorJson e)

/-- Embedding of `RoomAsyncBridge.redo` (unnamed bridge file, lines 176-179):
`room.redo()` runs with no `try`/`catch`, so an exception escapes before
`responseCallback` runs; on success the bare count is passed to the
callback. -/
def redoBridge (callResult : Except JsError Int) : BridgeOutcome :=
  match callResult with
  | .ok n => .respondedNum n
  | .error e => .threw e

/-- Whether a bridge outcome delivered anything to the response callback. -/
def outcomeIsCallbackResponse : BridgeOutcome → Bool
  | .responded _ => true
  | .respondedNum _ => true
  | .threw _ => false

/-- The slice of single-room state read and written by the paging methods:
`room.state.sceneState.index` and `room.state.sceneState.scenes`. -/
structure SceneState where
  index : Int
  scenes : List SceneDefinition
deriving DecidableEq

/-- Embedding of the single-room (no window manager) branch of
`RoomAsyncBridge.nextPage` (unnamed bridge file, lines 243-251): when
`index + 1` is below the scene count, `setSceneIndex` is called and the
callback receives `true`; otherwise the state is untouched and the callback
receives `false`. -/
def nextPage (st : SceneState) : SceneState × Bool :=
  let nextIndex := st.index + 1
  if nextIndex < (st.scenes.length : Int) then
    ({ st with index := nextIndex }, true)
  else
    (st, false)

/-- Embedding of the single-room branch of `RoomAsyncBridge.prevPage`
(unnamed bridge file, lines 259-267): when `index - 1` is at least zero,
`setSceneIndex` is called and the callback receives `true`; otherwise the
state is untouched and the callback receives `false`. -/
def prevPage (st : SceneState) : SceneState × Bool :=
  let prevIndex := st.index - 1
  if prevIndex ≥ 0 then
    ({ st with index := prevIndex }, true)
  else
    (st, false)

/-- Embedding of `RoomAsyncBridge.cleanScene` (unnamed bridge file, lines
420-428).  The argument is `none` when the caller passed `undefined`.  The
method computes a normalized boolean `retain` (second component) but then
calls `room.cleanCurrentScene(retainPpt)` with the original argument (first
component); `retain` is never used. -/
def cleanScene (retainPpt : Option Bool) : Option Bool × Bool :=
  let retain : Bool :=
    match retainPpt with
    | none => false
    | some b => b
  (retainPpt, retain)

/-- Concrete slide descriptor from the spec's first example source. -/
def pptDesc1 : PptDescription :=
  { src := "ppt://cdn.example.com/dynamicConvert/abc123/1.slide",
    width := 1280, height := 720, previewURL := none }

/-- Scene carrying `pptDesc1`. -/
def sceneMatch1 : SceneDefinition :=
  { name := some "page1", ppt := some pptDesc1 }

/-- Concrete slide descriptor from the spec's `pptx://` example source. -/
def pptDesc2 : PptDescription :=
  { src := "pptx://host/path/dynamicConvert/task42/2.slide",
    width := 1, height := 1, previewURL := none }

/-- Scene carrying `pptDesc2`. -/
def sceneMatch2 : SceneDefinition :=
  { name := some "page2", ppt := some pptDesc2 }

/-- Scene with no slide descriptor at all. -/
def scenePlain : SceneDefinition :=
  { name := some "plain", ppt := none }

/-- Scene whose source does not start with `ppt`. -/
def sceneHttpSrc : SceneDefinition :=
  { name := some "web",
    ppt := some { src := "https://cdn/dynamicConvert/a/1.slide",
                  width := 0, height := 0, previewURL := none } }

/-- Scene whose source starts with `ppt` but does not match the pattern. -/
def scenePptNoMatch : SceneDefinition :=
  { name := some "raw",
    ppt := some { src := "pptDeck", width := 0, height := 0, previewURL := none } }

/-- Concrete `addApp` options payload whose scene list holds one matching
scene. -/
def optsSlide : RawOptions Nat :=
  { scenePath := some "/dir/deck", title := some "deck",
    scenes := some [sceneMatch1], rest := 0 }

/-- Concrete `addApp` options payload whose scene list holds no matching
scene. -/
def optsNoMatch : RawOptions Nat :=
  { scenePath := some "/dir/doc", title := some "doc",
    scenes := some [scenePlain, sceneHttpSrc], rest := 7 }

/-- Scenes whose `sceneHit` all fail contribute nothing to the scan: the loop
just continues past them. -/
theorem slideScan_append (pre l : List SceneDefinition)
    (h : ∀ t ∈ pre, sceneHit t = none) :
    slideScan (pre ++ l) = slideScan l := by
  induction pre with
  | nil => rfl
  | cons a as ih =>
    have ha := h a (List.mem_cons_self a as)
    have ih2 := ih fun t ht => h t (List.mem_cons_of_mem a ht)
    simp [slideScan, ha, ih2]

/-- C2: for every input scene list, the stripped output has the same length,
and the entry at every index `i` is the name-only remap of the input entry at
`i` (its `name` equals the input name, its `ppt` descriptor is dropped). -/
theorem makeSlideParams_stripped_names (scenes : List SceneDefinition) :
    (makeSlideParams scenes).scenesWithoutPPT.length = scenes.length ∧
    ∀ i, ∀ h : i < scenes.length,
      (makeSlideParams scenes).scenesWithoutPPT[i]? =
        some { name := (scenes.get ⟨i, h⟩).name, ppt := none } := by
  constructor
  · simp [makeSlideParams]
  · intro i h
    simp [makeSlideParams, List.getElem?_map, List.getElem?_eq_getElem h]

/-- Witness for C2 at a concrete two-scene list and index 1. -/
theorem makeSlideParams_stripped_names_witness :
    (makeSlideParams [sceneMatch1, sceneHttpSrc]).scenesWithoutPPT[1]? =
      some { name := some "web", ppt := none } :=
  (makeSlideParams_stripped_names [sceneMatch1, sceneHttpSrc]).2 1 (by decide)

/-- C3: when every scene before `s` fails the slide-source test and `s`
succeeds with result `r`, the classifier returns exactly `r` on
`pre ++ s :: post` — whatever `post` holds, so later matching scenes cannot
influence the returned task identifier and url — and the stripped output
still has one entry per input scene. -/
theorem makeSlideParams_first_match_wins (pre post : List SceneDefinition)
    (s : SceneDefinition) (r : String × String)
    (hpre : ∀ t ∈ pre, sceneHit t = none) (hs : sceneHit s = some r) :
    (makeSlideParams (pre ++ s :: post)).taskId = r.1 ∧
    (makeSlideParams (pre ++ s :: post)).url = r.2 ∧
    (makeSlideParams (pre ++ s :: post)).scenesWithoutPPT.length =
      (pre ++ s :: post).length := by
  have hscan : slideScan (pre ++ s :: post) = r := by
    rw [slideScan_append pre (s :: post) hpre]
    simp [slideScan, hs]
  refine ⟨?_, ?_, ?_⟩
  · simp [makeSlideParams, hscan]
  · simp [makeSlideParams, hscan]
  · simp [makeSlideParams]

/-- Witness for C3: a non-matching scene, then the `abc123` scene, then a
second matching scene whose task `task42` is ignored. -/
theorem makeSlideParams_first_match_wins_witness :
    (makeSlideParams [scenePlain, sceneMatch1, sceneMatch2]).taskId = "abc123" ∧
    (makeSlideParams [scenePlain, sceneMatch1, sceneMatch2]).url =
      "https://cdn.example.com/dynamicConvert" ∧
    (makeSlideParams [scenePlain, sceneMatch1, sceneMatch2]).scenesWithoutPPT.length =
      ([scenePlain] ++ sceneMatch1 :: [sceneMatch2]).length :=
  makeSlideParams_first_match_wins [scenePlain] [sceneMatch2] sceneMatch1
    ("abc123", "https://cdn.example.com/dynamicConvert")
    (by decide) (by decide)

/-- C4: when no scene passes the slide-source test — scenes with no `ppt`
descriptor and scenes whose source does not match alike — the classifier
returns the empty string for both the task identifier and the url, and the
stripped output still has one entry per input scene. -/
theorem makeSlideParams_no_match_empty (scenes : List SceneDefinition)
    (h : ∀ t ∈ scenes, sceneHit t = none) :
    (makeSlideParams scenes).taskId = "" ∧
    (makeSlideParams scenes).url = "" ∧
    (makeSlideParams scenes).scenesWithoutPPT.length = scenes.length := by
  have hscan : slideScan scenes = ("", "") := by
    have := slideScan_append scenes [] h
    simpa using this
  refine ⟨?_, ?_, ?_⟩
  · simp [makeSlideParams, hscan]
  · simp [makeSlideParams, hscan]
  · simp [makeSlideParams]

/-- Witness for C4 at a list holding a `ppt`-less scene, an `https` source
and a non-matching `ppt`-prefixed source. -/
theorem makeSlideParams_no_match_empty_witness :
    (makeSlideParams [scenePlain, sceneHttpSrc, scenePptNoMatch]).taskId = "" ∧
    (makeSlideParams [scenePlain, sceneHttpSrc, scenePptNoMatch]).url = "" ∧
    (makeSlideParams [scenePlain, sceneHttpSrc, scenePptNoMatch]).scenesWithoutPPT.length =
      ([scenePlain, sceneHttpSrc, scenePptNoMatch] : List SceneDefinition).length :=
  makeSlideParams_no_match_empty [scenePlain, sceneHttpSrc, scenePptNoMatch] (by decide)

/-- Any successful `tryProtoAt` returns a url stem of the shape
`"://" ++ mid ++ "dynamicConvert"`. -/
theorem tryProtoAt_shape (l : List Char) (p t : String)
    (h : tryProtoAt l = some (p, t)) :
    ∃ mid, p = "://" ++ mid ++ "dynamicConvert" := by
  unfold tryProtoAt at h
  split at h
  · cases hg : goLazy [] (l.drop 3) with
    | none => rw [hg] at h; simp at h
    | some pr =>
      obtain ⟨c, tid⟩ := pr
      rw [hg] at h
      simp only [Option.some.injEq, Prod.mk.injEq] at h
      exact ⟨String.mk c, h.1.symm⟩
  · simp at h

/-- Any successful `execPptSrcRE` returns a url stem of the shape
`"://" ++ mid ++ "dynamicConvert"`. -/
theorem execPptSrcRE_shape (src : String) (p t : String)
    (h : execPptSrcRE src = some (p, t)) :
    ∃ mid, p = "://" ++ mid ++ "dynamicConvert" := by
  unfold execPptSrcRE at h
  split at h
  · cases h4 : tryProtoAt (src.data.drop 4) with
    | none => rw [h4] at h; exact tryProtoAt_shape _ p t h
    | some r =>
      rw [h4] at h
      simp only [Option.some.injEq] at h
      exact tryProtoAt_shape _ p t (h ▸ h4)
  · split at h
    · exact tryProtoAt_shape _ p t h
    · simp at h

/-- Any url produced by a successful scene scan step is `"https"` prepended
to a stem spanning from the protocol separator through `dynamicConvert`. -/
theorem sceneHit_url_shape (s : SceneDefinition) (tid u : String)
    (h : sceneHit s = some (tid, u)) :
    ∃ mid, u = "https" ++ ("://" ++ mid ++ "dynamicConvert") := by
  obtain ⟨nm, pp⟩ := s
  cases pp with
  | none => simp [sceneHit] at h
  | some p =>
    simp only [sceneHit] at h
    split at h
    · cases he : execPptSrcRE p.src with
      | none => rw [he] at h; simp at h
      | some r =>
        obtain ⟨stem, tid2⟩ := r
        rw [he] at h
        simp only [Option.some.injEq, Prod.mk.injEq] at h
        obtain ⟨mid, hm⟩ := execPptSrcRE_shape p.src stem tid2 he
        exact ⟨mid, by rw [← h.2, hm]⟩
    · simp at h

/-- C5: every url the classifier derives from a matching slide source is
`"https"` prepended to the matched portion from the protocol separator
through `dynamicConvert` (so it always carries an `https` scheme); on the
spec's two concrete sources the classifier yields task `abc123` with url
`https://cdn.example.com/dynamicConvert`, and — through a `pptx://` tag —
task `task42` with url `https://host/path/dynamicConvert`. -/
theorem slide_url_https_reconstruction :
    (∀ s tid u, sceneHit s = some (tid, u) →
        ∃ mid, u = "https" ++ ("://" ++ mid ++ "dynamicConvert")) ∧
    makeSlideParams [sceneMatch1] =
      { scenesWithoutPPT := [{ name := some "page1", ppt := none }],
        taskId := "abc123", url := "https://cdn.example.com/dynamicConvert" } ∧
    makeSlideParams [sceneMatch2] =
      { scenesWithoutPPT := [{ name := some "page2", ppt := none }],
        taskId := "task42", url := "https://host/path/dynamicConvert" } :=
  ⟨fun s tid u h => sceneHit_url_shape s tid u h, by decide, by decide⟩

/-- Witness for C5 at the concrete `abc123` scene. -/
theorem slide_url_https_reconstruction_witness :
    ∃ mid, "https://cdn.example.com/dynamicConvert" =
      "https" ++ ("://" ++ mid ++ "dynamicConvert") :=
  slide_url_https_reconstruction.1 sceneMatch1 "abc123"
    "https://cdn.example.com/dynamicConvert" (by decide)

/-- C1: with a window manager active, an `addApp` request of kind `"Slide"`
runs the classifier on the supplied scene list; when both the task identifier
and the url are nonempty it issues a `"Slide"`-kind creation carrying those
attributes and the stripped scene list, and otherwise a `"DocsViewer"`
creation carrying the original scene list. -/
theorem addApp_slide_dispatch {α β : Type} (options : RawOptions α)
    (attributes : β) (scs : List SceneDefinition)
    (hsc : options.scenes = some scs) :
    ((makeSlideParams scs).taskId ≠ "" ∧ (makeSlideParams scs).url ≠ "" →
      addApp true "Slide" options attributes =
        AddAppOutcome.call (AddAppCall.slideCreate
          { kind := "Slide", scenePath := options.scenePath,
            title := options.title,
            scenes := (makeSlideParams scs).scenesWithoutPPT,
            attributes := some { taskId := (makeSlideParams scs).taskId,
                                 url := (makeSlideParams scs).url } })) ∧
    (¬ ((makeSlideParams scs).taskId ≠ "" ∧ (makeSlideParams scs).url ≠ "") →
      addApp true "Slide" options attributes =
        AddAppOutcome.call (AddAppCall.slideCreate
          { kind := "DocsViewer", scenePath := options.scenePath,
            title := options.title, scenes := scs, attributes := none })) := by
  constructor
  · intro h
    simp [addApp, hsc, addSlideApp, h]
  · intro h
    simp [addApp, hsc, addSlideApp, h]

/-- Witness for C1 on a scene list whose first scene matches. -/
theorem addApp_slide_dispatch_witness :
    addApp true "Slide" optsSlide (37 : Nat) =
      AddAppOutcome.call (AddAppCall.slideCreate
        { kind := "Slide", scenePath := optsSlide.scenePath,
          title := optsSlide.title,
          scenes := (makeSlideParams [sceneMatch1]).scenesWithoutPPT,
          attributes := some { taskId := (makeSlideParams [sceneMatch1]).taskId,
                               url := (makeSlideParams [sceneMatch1]).url } }) :=
  (addApp_slide_dispatch optsSlide (37 : Nat) [sceneMatch1] rfl).1 (by decide)

/-- C6: with a window manager active, an `addApp` request of any kind other
than `"Slide"` is forwarded verbatim — same kind, same options object, same
attributes — to the external app-creation facility, with no classifier
involvement. -/
theorem addApp_forwards_other_kinds {α β : Type} (kind : String)
    (options : RawOptions α) (attributes : β) (h : kind ≠ "Slide") :
    addApp true kind options attributes =
      AddAppOutcome.call (AddAppCall.generic kind options attributes) := by
  simp [addApp, h]

/-- Witness for C6 at kind `"MediaPlayer"`. -/
theorem addApp_forwards_other_kinds_witness :
    addApp true "MediaPlayer" optsNoMatch (37 : Nat) =
      AddAppOutcome.call (AddAppCall.generic "MediaPlayer" optsNoMatch 37) :=
  addApp_forwards_other_kinds "MediaPlayer" optsNoMatch 37 (by decide)

/-- C8: without a window manager, an `addApp` request of kind `"Slide"`
produces no external call at all and never schedules the response callback:
the caller hangs. -/
theorem addApp_no_manager_no_response {α β : Type} (options : RawOptions α)
    (attributes : β) :
    addApp false "Slide" options attributes = AddAppOutcome.noCall ∧
    outcomeInvokesCallback (addApp false "Slide" options attributes) = false := by
  constructor
  · simp [addApp]
  · simp [addApp, outcomeInvokesCallback]

/-- C7 counterexample: a collaborator exception inside `redo` is not
delivered to the response callback in any form — it escapes the bridge
method uncaught, refuting the claim that every asynchronous method rewraps
collaborator exceptions into an `__error` response. -/
theorem redo_error_escapes_uncaught :
    outcomeIsCallbackResponse
      (redoBridge (Except.error { message := "boom", stack := "trace" })) = false ∧
    redoBridge (Except.error { message := "boom", stack := "trace" }) =
      BridgeOutcome.threw { message := "boom", stack := "trace" } := by
  exact ⟨rfl, rfl⟩

/-- C7 amended: asynchronous methods whose collaborator call is guarded
(such as `setScenePath`) deliver every collaborator exception to the
response callback as the JSON payload `\x7b"__error":\x7b"message":…,
"jsStack":…\x7d\x7d`, while unguarded methods such as `redo` let the
exception propagate uncaught out of the bridge method. -/
theorem bridge_error_wrapping_amended :
    (∀ e : JsError,
      setScenePathBridge (Except.error e) = BridgeOutcome.responded (errorJson e)) ∧
    (∀ e : JsError,
      outcomeIsCallbackResponse (setScenePathBridge (Except.error e)) = true) ∧
    (∀ e : JsError, redoBridge (Except.error e) = BridgeOutcome.threw e) :=
  ⟨fun _ => rfl, fun _ => rfl, fun _ => rfl⟩

/-- C9: in single-room mode, `nextPage` answers `true` and bumps the index
exactly when `index + 1` is below the scene count and otherwise answers
`false` leaving the state alone; `prevPage` answers `true` and decrements
exactly when `index - 1` is at least zero and otherwise answers `false`
leaving the state alone. -/
theorem nextPage_prevPage_spec (st : SceneState) :
    (st.index + 1 < (st.scenes.length : Int) →
        nextPage st = ({ st with index := st.index + 1 }, true)) ∧
    (¬ st.index + 1 < (st.scenes.length : Int) → nextPage st = (st, false)) ∧
    (st.index - 1 ≥ 0 → prevPage st = ({ st with index := st.index - 1 }, true)) ∧
    (¬ st.index - 1 ≥ 0 → prevPage st = (st, false)) := by
  refine ⟨?_, ?_, ?_, ?_⟩ <;> intro h <;> simp [nextPage, prevPage, h]

/-- Witness for C9: from index 0 of a two-scene room, `nextPage` succeeds and
`prevPage` refuses. -/
theorem nextPage_prevPage_spec_witness :
    nextPage { index := 0, scenes := [scenePlain, sceneHttpSrc] } =
      ({ index := 1, scenes := [scenePlain, sceneHttpSrc] }, true) ∧
    prevPage { index := 0, scenes := [scenePlain, sceneHttpSrc] } =
      ({ index := 0, scenes := [scenePlain, sceneHttpSrc] }, false) :=
  ⟨(nextPage_prevPage_spec { index := 0, scenes := [scenePlain, sceneHttpSrc] }).1
      (by decide),
   (nextPage_prevPage_spec { index := 0, scenes := [scenePlain, sceneHttpSrc] }).2.2.2
      (by decide)⟩

/-- C10: `cleanScene` always hands the collaborator the original `retainPpt`
argument — in particular `undefined` stays `undefined` — even though it
computed the normalized boolean (`false` for `undefined`) into an unused
local. -/
theorem cleanScene_passes_original_argument :
    (∀ r : Option Bool, (cleanScene r).1 = r) ∧
    (cleanScene none).1 = none ∧ (cleanScene none).2 = false :=
  ⟨fun _ => rfl, rfl, rfl⟩
